import Mathlib

/-!
Verification of `homeassistant/components/keyboard_remote.py`.

The component fires `keyboard_remote_command_received` events on a bus when a
grabbed evdev input device reports a key event whose value matches the
configured filter mode.  The capture loop (`KeyboardRemote.run`) is embedded as
a step function over the loop state (the `keyboard_connected` flag) and a
per-iteration environment record (the stop flag, `os.path.exists` on the device
descriptor, whether re-acquisition succeeds, and what `read_one` returns).
Each step yields a control outcome (exit / next iteration / uncaught exception)
together with a trace of the observable actions the body performs.
-/

/-- Embeds `KEYBOARD_REMOTE_COMMAND_RECEIVED = 'keyboard_remote_command_received'`. -/
def KEYBOARD_REMOTE_COMMAND_RECEIVED : String := "keyboard_remote_command_received"

/-- Embeds `KEY_CODE = 'key_code'`. -/
def KEY_CODE : String := "key_code"

/-- The three values of the `type` configuration option. -/
inductive KeyType where
  | key_up : KeyType
  | key_down : KeyType
  | key_hold : KeyType
deriving DecidableEq

/-- Embeds `KEY_VALUE = {'key_up': 0, 'key_down': 1, 'key_hold': 2}`. -/
def KEY_VALUE : KeyType → Nat
  | .key_up => 0
  | .key_down => 1
  | .key_hold => 2

/-- Embeds `ecodes.EV_KEY` from the evdev bindings (Linux input event kind for
key events). -/
def EV_KEY : Nat := 1

/-- One raw evdev event as read by `self.dev.read_one()`: its event kind
(`event.type`), hardware key code (`event.code`) and value (`event.value`). -/
structure RawEvent where
  type : Nat
  code : Nat
  value : Nat
deriving DecidableEq

/-- A notification fired on the bus: the event name passed to `hass.bus.fire`
plus the payload mapping. -/
structure Notification where
  eventName : String
  payload : List (String × Nat)
deriving DecidableEq

/-- Result of one `self.dev.read_one()` call: an event, no event (`None`), or
an `IOError` raised by the read. -/
inductive ReadResult where
  | event : RawEvent → ReadResult
  | noEvent : ReadResult
  | ioError : ReadResult
deriving DecidableEq

/-- Observable actions the loop body can perform, in order.  `acquire` stands
for the `InputDevice(self.device_descriptor)` + `self.dev.grab()` pair of the
reconnect block, `grab` for the bare `self.dev.grab()` at the top of `run`,
`fire` for `self.hass.bus.fire`.  `release` is an action the source could emit
by closing or ungrabbing a device handle; it is listed so theorems can speak
about its absence. -/
inductive Act where
  | sleep : Nat → Act
  | acquire : Act
  | grab : Act
  | read : Act
  | fire : Notification → Act
  | release : Act
deriving DecidableEq

/-- Per-iteration environment: what the outside world answers during one pass
of the `while` body.  `stopped` is `self.stopped.isSet()`, `pathExists` is
`os.path.exists(self.device_descriptor)`, `acquireOk` tells whether the
reconnect-block `InputDevice(...)`/`grab()` pair would succeed, and
`readResult` is what `self.dev.read_one()` does. -/
structure Env where
  stopped : Bool
  pathExists : Bool
  acquireOk : Bool
  readResult : ReadResult
deriving DecidableEq

/-- Control outcome of one iteration of the `while` body: the loop exits
normally (`exit`, stop flag observed), proceeds to the next iteration with a
new `keyboard_connected` value (`next`), or an exception escapes the body
uncaught (`crash`). -/
inductive StepResult where
  | exit : StepResult
  | next : Bool → StepResult
  | crash : StepResult
deriving DecidableEq

/-- Embeds the core structure constructed by `KeyboardRemote.__init__`. -/
structure KeyboardRemote where
  device_descriptor : String
  key_value : Nat
deriving DecidableEq

/-- Failure raised when opening or grabbing the input device is rejected. -/
inductive DevError where
  | acquisitionError : DevError
deriving DecidableEq

/-- Embeds `KeyboardRemote.__init__`: it evaluates
`self.dev = InputDevice(device_descriptor)` — which may raise, aborting
construction — and stores the descriptor and key value.  No grab is performed
here; the grab happens at the top of `run`. -/
def KeyboardRemote.init (device_descriptor : String) (key_value : Nat)
    (openOk : Bool) : Except DevError KeyboardRemote :=
  if openOk then .ok ⟨device_descriptor, key_value⟩
  else .error .acquisitionError

/-- Embeds one iteration of the `while not self.stopped.isSet()` body of
`KeyboardRemote.run`, given the configured `key_value` and the current
`keyboard_connected` flag:
the stop flag is tested first; `keyboard_still_connected` is read from the
filesystem; a still-disconnected device makes the body `continue`; a
reconnected device triggers `time.sleep(1)` and the `InputDevice`/`grab` pair,
which is not inside any `try` — a failure there escapes the body (`crash`);
then `read_one` runs inside `try ... except IOError`, an `IOError` clears
`keyboard_connected` and continues; a `None` event continues; an event fires
`keyboard_remote_command_received` with payload `{key_code: event.code}` iff
`event.type` is `EV_KEY` and `event.value` is `key_value`. -/
def KeyboardRemote.step (key_value : Nat) (keyboard_connected : Bool)
    (env : Env) : StepResult × List Act :=
  if env.stopped then (.exit, [])
  else
    let keyboard_still_connected := env.pathExists
    if !keyboard_connected && !keyboard_still_connected then
      (.next keyboard_connected, [])
    else
      let reconnectActs : List Act :=
        if !keyboard_connected && keyboard_still_connected then
          [.sleep 1, .acquire]
        else []
      if !keyboard_connected && keyboard_still_connected && !env.acquireOk then
        (.crash, reconnectActs)
      else
        match env.readResult with
        | .ioError => (.next false, reconnectActs ++ [.read])
        | .noEvent => (.next true, reconnectActs ++ [.read])
        | .event e =>
          if e.type == EV_KEY && e.value == key_value then
            (.next true, reconnectActs ++
              [.read, .fire ⟨KEYBOARD_REMOTE_COMMAND_RECEIVED,
                             [(KEY_CODE, e.code)]⟩])
          else
            (.next true, reconnectActs ++ [.read])

/-- Overall outcome of running the loop against a finite script of
environments: the loop exited via the stop flag, an exception escaped
(`crashed`), or the script ran out while the loop was still iterating. -/
inductive RunOutcome where
  | exited : RunOutcome
  | crashed : RunOutcome
  | scriptEnded : RunOutcome
deriving DecidableEq

/-- Runs the `while` loop of `KeyboardRemote.run` against a finite script of
per-iteration environments, threading the `keyboard_connected` flag and
concatenating the action traces. -/
def KeyboardRemote.loopRun (key_value : Nat) :
    Bool → List Env → RunOutcome × List Act
  | _, [] => (.scriptEnded, [])
  | kc, env :: rest =>
    match KeyboardRemote.step key_value kc env with
    | (.exit, acts) => (.exited, acts)
    | (.crash, acts) => (.crashed, acts)
    | (.next kc2, acts) =>
      let r := KeyboardRemote.loopRun key_value kc2 rest
      (r.1, acts ++ r.2)

/-- Embeds `KeyboardRemote.run`: it first executes `self.dev.grab()` — not
inside any `try`, so a rejected grab escapes `run` — sets
`keyboard_connected = True` and enters the `while` loop. -/
def KeyboardRemote.runLoop (key_value : Nat) (grabOk : Bool)
    (envs : List Env) : RunOutcome × List Act :=
  if grabOk then
    let r := KeyboardRemote.loopRun key_value true envs
    (r.1, Act.grab :: r.2)
  else (.crashed, [])

/-- Pythonic truthiness of a value that `setup` can return (`device_descriptor`
style falsiness for `Option String` is `descriptorFalsy` below). -/
def pythonTruthy : Option Bool → Bool
  | none => false
  | some b => b

/-- Embeds the Python truthiness test `not device_descriptor`: `None` and the
empty string are falsy. -/
def descriptorFalsy : Option String → Bool
  | none => true
  | some s => s.isEmpty

/-- Observable actions of `setup`: the single `_LOGGER.error` call with the
listing of `/dev/input/by-id/`, the construction of the `KeyboardRemote`
core, and the two `hass.bus.listen_once` registrations. -/
inductive SetupAct where
  | logError : List String → SetupAct
  | constructCore : SetupAct
  | listenStart : SetupAct
  | listenStop : SetupAct
deriving DecidableEq

/-- Embeds `setup(hass, config)`: when `device_descriptor` is falsy or the
path does not exist, it logs one error with the `/dev/input/by-id/` listing
and returns `None`; otherwise it looks up `KEY_VALUE`, constructs
`KeyboardRemote` (whose open may raise out of `setup`), registers the start
and stop listeners, and returns `True`. -/
def setup (device_descriptor : Option String) (pathExists : Bool)
    (byIdListing : List String) (keyType : KeyType) (openOk : Bool) :
    Except DevError (Option Bool) × List SetupAct :=
  if descriptorFalsy device_descriptor || !pathExists then
    (.ok none, [.logError byIdListing])
  else
    match KeyboardRemote.init (device_descriptor.getD "") (KEY_VALUE keyType)
        openOk with
    | .error e => (.error e, [])
    | .ok _ => (.ok (some true),
        [.constructCore, .listenStart, .listenStop])

/-- Modelled from the spec: no release operation exists in
`homeassistant/components/keyboard_remote.py` (the source never closes or
ungrabs a handle), so the Device Handle of spec section 4.1 is modelled from
the spec words: a handle wraps one open capture session, and `release` closes
the underlying session, is idempotent, and never fails observably. -/
structure DeviceHandle where
  descriptor : String
  isOpen : Bool
  grabbed : Bool
deriving DecidableEq

/-- Modelled from the spec: `release(handle)` closes the underlying session
(best-effort, total — it never fails observably). -/
def DeviceHandle.release (h : DeviceHandle) : DeviceHandle :=
  { h with isOpen := false, grabbed := false }

/-- C2 counterexample: in the DISCONNECTED state with the descriptor path
present again, a failing acquire attempt does NOT leave the loop in
DISCONNECTED retrying on the next iteration — the `InputDevice`/`grab` pair is
outside every `try`, so the exception escapes and the loop terminates crashed;
the rest of the script (here a succeeding acquire) is never reached. -/
theorem claim2_counterexample :
    KeyboardRemote.loopRun 0 false
      [⟨false, true, false, .noEvent⟩, ⟨false, true, true, .noEvent⟩] =
      (RunOutcome.crashed, [Act.sleep 1, Act.acquire]) := rfl

/-- C2 amended: in the DISCONNECTED state, when the descriptor path exists
again and the acquire attempt (reopen plus exclusive grab) fails, the
exception is not caught: it propagates out of the loop body and the loop
terminates (the thread dies); no retry happens, for any remaining script. -/
theorem claim2_amended (kv : Nat) (rr : ReadResult) (envs : List Env) :
    KeyboardRemote.loopRun kv false (⟨false, true, false, rr⟩ :: envs) =
      (RunOutcome.crashed, [Act.sleep 1, Act.acquire]) := rfl

/-- C3: from any loop state (CONNECTED or DISCONNECTED), an iteration that
observes the stop flag set exits the loop at once, emitting nothing — in
particular no notification — whatever the rest of the environment or script
holds; the flag is the first thing each iteration tests. -/
theorem claim3_cancellation (kv : Nat) (kc pe aq : Bool) (rr : ReadResult)
    (envs : List Env) :
    KeyboardRemote.loopRun kv kc (⟨true, pe, aq, rr⟩ :: envs) =
      (RunOutcome.exited, []) := rfl

/-- C4: in the CONNECTED state, a read that raises `IOError` transitions the
loop to DISCONNECTED and continues; the iteration's trace is the bare read —
no notification is fired — and the error never escapes the loop (the step
result is `next`, not `crash`). -/
theorem claim4_read_error_nonfatal (kv : Nat) (pe aq : Bool) :
    KeyboardRemote.step kv true ⟨false, pe, aq, .ioError⟩ =
      (StepResult.next false, [Act.read]) ∧
    ∀ n : Notification,
      Act.fire n ∉ (KeyboardRemote.step kv true ⟨false, pe, aq, .ioError⟩).2 := by
  refine ⟨rfl, fun n => ?_⟩
  simp [KeyboardRemote.step]

/-- C6 counterexample: a run that is cancelled while CONNECTED exits having
grabbed the device but never released it — its whole trace is the initial
grab, with no release action, because no code path of `run` closes or ungrabs
a handle. -/
theorem claim6_counterexample :
    KeyboardRemote.runLoop 0 true [⟨true, true, true, .noEvent⟩] =
      (RunOutcome.exited, [Act.grab]) ∧
    Act.release ∉ [Act.grab] := ⟨rfl, by simp⟩

/-- Helper: no iteration of the loop body ever performs a release. -/
theorem step_no_release (kv : Nat) (kc : Bool) (env : Env) :
    Act.release ∉ (KeyboardRemote.step kv kc env).2 := by
  rcases env with ⟨st, pe, aq, rr⟩
  rcases st <;> rcases pe <;> rcases kc <;> rcases aq <;>
    rcases rr with e | _ | _ <;>
    simp [KeyboardRemote.step] <;> split <;> simp

/-- Helper: the loop never performs a release over any script. -/
theorem loopRun_no_release (kv : Nat) (kc : Bool) (envs : List Env) :
    Act.release ∉ (KeyboardRemote.loopRun kv kc envs).2 := by
  induction envs generalizing kc with
  | nil => simp [KeyboardRemote.loopRun]
  | cons env rest ih =>
    have hstep := step_no_release kv kc env
    simp only [KeyboardRemote.loopRun]
    rcases h : KeyboardRemote.step kv kc env with ⟨res, acts⟩
    rw [h] at hstep
    rcases res with _ | kc2 | _
    · simpa using hstep
    · have : Act.release ∉ acts := by simpa using hstep
      simp [List.mem_append, this, ih kc2]
    · simpa using hstep

/-- C6 amended: when the loop exits on cancellation (and indeed on every run),
no release of the held device handle ever happens — the source contains no
close or ungrab call — so the handle is still held when `run` returns, in both
the CONNECTED and DISCONNECTED states. -/
theorem claim6_amended (kv : Nat) (grabOk kc : Bool) (envs : List Env) :
    Act.release ∉ (KeyboardRemote.loopRun kv kc envs).2 ∧
    Act.release ∉ (KeyboardRemote.runLoop kv grabOk envs).2 := by
  refine ⟨loopRun_no_release kv kc envs, ?_⟩
  rcases grabOk with _ | _
  · simp [KeyboardRemote.runLoop]
  · simpa [KeyboardRemote.runLoop] using loopRun_no_release kv true envs

/-- C7 counterexample: construction of the core performs only the open, not the
exclusive grab — with the open succeeding, `__init__` returns the core even
though the grab is going to be rejected; the rejected grab then surfaces at the
start of `run`, crashing the loop, not aborting construction. -/
theorem claim7_counterexample :
    KeyboardRemote.init "/dev/input/event0" 0 true =
      Except.ok ⟨"/dev/input/event0", 0⟩ ∧
    KeyboardRemote.runLoop 0 false [] = (RunOutcome.crashed, []) := ⟨rfl, rfl⟩

/-- C7 amended: a rejected open at construction is fatal and propagates,
aborting construction of the core; the exclusive grab is not part of
construction — it happens at the top of `run`, and a rejected grab there
propagates out of the capture loop (after construction already succeeded). -/
theorem claim7_amended (d : String) (kv : Nat) (envs : List Env) :
    KeyboardRemote.init d kv false = Except.error DevError.acquisitionError ∧
    KeyboardRemote.init d kv true = Except.ok ⟨d, kv⟩ ∧
    KeyboardRemote.runLoop kv false envs = (RunOutcome.crashed, []) :=
  ⟨rfl, rfl, rfl⟩

/-- C8: releasing an already-released handle is a no-op — `release` is
idempotent, total (it cannot fail), and leaves the handle closed and
ungrabbed. -/
theorem claim8_release_idempotent (h : DeviceHandle) :
    (h.release).release = h.release ∧ (h.release).isOpen = false ∧
    (h.release).grabbed = false := ⟨rfl, rfl, rfl⟩

/-- Helper: in the CONNECTED state, a read returning an event yields exactly
the read plus, when and only when the event is a key event whose value matches
the configured one, the single bus fire. -/
theorem step_connected_event (kv : Nat) (e : RawEvent) (pe aq : Bool) :
    KeyboardRemote.step kv true ⟨false, pe, aq, .event e⟩ =
      (StepResult.next true,
        if e.type = EV_KEY ∧ e.value = kv then
          [Act.read,
           Act.fire ⟨KEYBOARD_REMOTE_COMMAND_RECEIVED, [(KEY_CODE, e.code)]⟩]
        else [Act.read]) := by
  by_cases h1 : e.type = EV_KEY <;> by_cases h2 : e.value = kv <;>
    simp [KeyboardRemote.step, h1, h2]

/-- C1: for every filter mode m and raw event e read while CONNECTED, the loop
fires a notification iff e is of the KEY event kind and its value equals
`KEY_VALUE m` (key_up ↦ 0, key_down ↦ 1, key_hold ↦ 2); the fired notification
is exactly the fixed event name `keyboard_remote_command_received` with payload
`[(key_code, e.code)]`; any other event leaves only the read in the trace, with
no further side effect, and the state stays CONNECTED. -/
theorem claim1_filter (m : KeyType) (e : RawEvent) (pe aq : Bool) :
    KeyboardRemote.step (KEY_VALUE m) true ⟨false, pe, aq, .event e⟩ =
      (StepResult.next true,
        if e.type = EV_KEY ∧ e.value = KEY_VALUE m then
          [Act.read,
           Act.fire ⟨KEYBOARD_REMOTE_COMMAND_RECEIVED, [(KEY_CODE, e.code)]⟩]
        else [Act.read]) ∧
    (∀ n : Notification,
      Act.fire n ∈
          (KeyboardRemote.step (KEY_VALUE m) true ⟨false, pe, aq, .event e⟩).2 ↔
        e.type = EV_KEY ∧ e.value = KEY_VALUE m ∧
          n = ⟨KEYBOARD_REMOTE_COMMAND_RECEIVED, [(KEY_CODE, e.code)]⟩) := by
  refine ⟨step_connected_event (KEY_VALUE m) e pe aq, fun n => ?_⟩
  rw [step_connected_event (KEY_VALUE m) e pe aq]
  by_cases h : e.type = EV_KEY ∧ e.value = KEY_VALUE m
  · simp [h, and_assoc]
  · simp [h]
    tauto

/-- C5: in the DISCONNECTED state, an iteration whose descriptor path is still
absent is a no-op; when the path exists again, the iteration performs exactly
one acquire attempt, preceded by the fixed one-second settle sleep; and on a
successful acquire the state becomes CONNECTED and the same iteration already
resumes reading (here: an empty read). -/
theorem claim5_reconnect (kv : Nat) (aq : Bool) (rr : ReadResult) :
    KeyboardRemote.step kv false ⟨false, false, aq, rr⟩ =
      (StepResult.next false, []) ∧
    (∃ rest, (KeyboardRemote.step kv false ⟨false, true, aq, rr⟩).2 =
       Act.sleep 1 :: Act.acquire :: rest ∧ Act.acquire ∉ rest) ∧
    KeyboardRemote.step kv false ⟨false, true, true, .noEvent⟩ =
      (StepResult.next true, [Act.sleep 1, Act.acquire, Act.read]) := by
  refine ⟨rfl, ?_, rfl⟩
  rcases aq with _ | _
  · exact ⟨[], rfl, by simp⟩
  · rcases rr with e | _ | _
    · rcases h : (e.type == EV_KEY && e.value == kv) with _ | _
      · exact ⟨[Act.read], by simp [KeyboardRemote.step, h], by simp⟩
      · refine ⟨[Act.read,
          Act.fire ⟨KEYBOARD_REMOTE_COMMAND_RECEIVED, [(KEY_CODE, e.code)]⟩],
          by simp [KeyboardRemote.step, h], by simp⟩
    · exact ⟨[Act.read], rfl, by simp⟩
    · exact ⟨[Act.read], rfl, by simp⟩

/-- C9: a setup call whose configured descriptor is missing (None), empty, or
names a non-existent path constructs no core, performs exactly one error log —
carrying the `/dev/input/by-id/` candidate listing — registers nothing, raises
nothing, and returns `None`. -/
theorem claim9_missing_descriptor (pe openOk : Bool) (listing : List String)
    (t : KeyType) (s : String) :
    setup none pe listing t openOk = (.ok none, [SetupAct.logError listing]) ∧
    setup (some "") pe listing t openOk =
      (.ok none, [SetupAct.logError listing]) ∧
    setup (some s) false listing t openOk =
      (.ok none, [SetupAct.logError listing]) := by
  refine ⟨rfl, rfl, ?_⟩
  simp [setup, descriptorFalsy]

/-- C10: setup returns `True` when the descriptor is non-empty, its path
exists and the core opens, but returns `None` — not `False` — on the
missing-descriptor path; `None` is falsy under a truthiness test yet is a
different value from `False`, so a comparison against `False` does not detect
the failure. -/
theorem claim10_return_values (d : String) (listing : List String) (t : KeyType)
    (h : d.isEmpty = false) :
    (setup (some d) true listing t true).1 = Except.ok (some true) ∧
    (setup (some d) false listing t true).1 = Except.ok none ∧
    pythonTruthy (some true) = true ∧
    pythonTruthy none = false ∧
    (none : Option Bool) ≠ some false := by
  refine ⟨?_, ?_, rfl, rfl, by simp⟩
  · simp [setup, descriptorFalsy, h, KeyboardRemote.init]
  · simp [setup, descriptorFalsy, h]

/-- C10 witness: the return-value contrast evaluated at the concrete
descriptor `/dev/input/event0`. -/
theorem claim10_return_values_witness :
    ("/dev/input/event0".isEmpty = false) ∧
    ((setup (some "/dev/input/event0") true [] KeyType.key_up true).1 =
        Except.ok (some true) ∧
      (setup (some "/dev/input/event0") false [] KeyType.key_up true).1 =
        Except.ok none ∧
      pythonTruthy (some true) = true ∧
      pythonTruthy none = false ∧
      (none : Option Bool) ≠ some false) :=
  ⟨rfl, claim10_return_values "/dev/input/event0" [] KeyType.key_up rfl⟩
